import Mathlib

/-!
Verification of the client-side route-comparison core of the Accessible
Route Planner frontend (`src/frontend/src/components/RouteMap.tsx`).

The development shallowly embeds the state and operations of the
`RouteMap` component:

* the two-point click state machine (`ClickToSetPoints`),
* the fetch handler (`fetchRoutes`) applying a comparison response,
* the route-selection setter (`setSelectedRouteId`),
* the viewport fit (`FitToRoutes`),
* the derived display projection (elevation chart and surface details).

Numeric values (`number` in TypeScript) are embedded as rationals; string
ids stay strings; nullable values become `Option`.
-/

/-- Embedding of a latitude/longitude pair (`[number, number]` in the
source, `{lat, lon}` in the request payload). -/
structure GeoPoint where
  lat : ℚ
  lon : ℚ
deriving DecidableEq, Repr

/-- Embedding of one entry of `Route.elevation_profile`:
`{ i, lat, lon, elev_m, dist_m }`. -/
structure ElevationSample where
  i : Nat
  lat : ℚ
  lon : ℚ
  elev_m : ℚ
  dist_m : ℚ
deriving DecidableEq, Repr

/-- Embedding of `Route.elevation_metrics.steep_distance_m`. -/
structure SteepDistance where
  gt5 : ℚ
  gt8 : ℚ
deriving DecidableEq, Repr

/-- Embedding of `Route.elevation_metrics`. -/
structure ElevationMetrics where
  ascent_m : ℚ
  descent_m : ℚ
  max_slope_percent : ℚ
  steep_distance_m : SteepDistance
deriving DecidableEq, Repr

/-- Embedding of `Route.osm_summary`.  The TypeScript
`Record<string, number>` maps are embedded as association lists; the
source field `unknown_surface_ratio` is embedded as
`unknown_surface_frac` (a rational in place of the float). -/
structure OsmSummary where
  steps_count : Nat
  surfaces : List (String × Nat)
  smoothness : List (String × Nat)
  highway_types : List (String × Nat)
  kerb_nodes_count : Nat
  unknown_surface_frac : ℚ
  sample_points_used : Nat
deriving DecidableEq, Repr

/-- Embedding of the `Route` type of `RouteMap.tsx`. -/
structure Route where
  id : String
  geometry : List GeoPoint
  distance_m : ℚ
  duration_s : ℚ
  elevation_metrics : ElevationMetrics
  elevation_profile : List ElevationSample
  osm_summary : OsmSummary
  accessibility_score : ℚ
  flags : List String
deriving DecidableEq, Repr

/-- State of the two-point selector: the `start` and `end` React states
of `RouteMap` (the source's `end` is embedded as `endPt`).  `none`
embeds the TypeScript `null`. -/
structure PointState where
  start : Option GeoPoint
  endPt : Option GeoPoint
deriving DecidableEq, Repr

/-- Initial selector state: `useState<[number, number] | null>(null)`
for both points. -/
def initialPoints : PointState := { start := none, endPt := none }

/-- Embedding of the `click(e)` handler of `ClickToSetPoints`
(`RouteMap.tsx` lines 374-387): first click sets `start`, second sets
`end`, a click with both set resets `start` to the clicked point and
clears `end`. -/
def clickStep (st : PointState) (p : GeoPoint) : PointState :=
  if st.start.isNone then { st with start := some p }
  else if st.endPt.isNone then { st with endPt := some p }
  else { start := some p, endPt := none }

/-- State of the selector after a sequence of clicks starting from the
initial (all-`null`) state. -/
def runClicks (ps : List GeoPoint) : PointState :=
  ps.foldl clickStep initialPoints

/-- Full session state of the `RouteMap` component: the four `useState`
hooks `routes`, `start`, `end`, `selectedRouteId`. -/
structure SessionState where
  routes : List Route
  start : Option GeoPoint
  endPt : Option GeoPoint
  selectedRouteId : Option String
deriving DecidableEq, Repr

/-- Outcome of the comparison request as seen by `fetchRoutes`:
either the response had a non-ok HTTP status, or the fetch / body parse
threw (network failure or unparseable body), or it parsed successfully
with `routesField` embedding `data?.routes` (`none` when the field is
absent or not an array). -/
inductive FetchResult where
  | httpError (status : Nat) (body : String)
  | thrown
  | ok (routesField : Option (List Route))
deriving DecidableEq, Repr

/-- Result of running the `fetchRoutes` handler: the updated component
state, whether the request was issued to the backend at all, and the
message of the `alert(...)` call if one fired. -/
structure FetchOutcome where
  state : SessionState
  requestIssued : Bool
  alertMsg : Option String
deriving DecidableEq, Repr

/-- Embedding of `fetchRoutes` (`RouteMap.tsx` lines 164-203).  The
guard `if (!start || !end)` alerts and returns without issuing the
request; a non-ok status or a thrown error alerts and resets `routes`
and `selectedRouteId`; a parsed response replaces `routes` with
`Array.isArray(data?.routes) ? data.routes : []` and sets
`selectedRouteId` to `routesFromBackend[0]?.id ?? null`. -/
def fetchRoutes (st : SessionState) (resp : FetchResult) : FetchOutcome :=
  if st.start.isNone ∨ st.endPt.isNone then
    { state := st
      requestIssued := false
      alertMsg := some "Click once to set START, then click again to set END." }
  else
    match resp with
    | .httpError status _ =>
        { state := { st with routes := [], selectedRouteId := none }
          requestIssued := true
          alertMsg := some ("Backend error " ++ toString status ++ ". Check console.") }
    | .thrown =>
        { state := { st with routes := [], selectedRouteId := none }
          requestIssued := true
          alertMsg := some "Could not fetch routes (backend down or network error)." }
    | .ok rf =>
        let routesFromBackend := rf.getD []
        { state := { st with
            routes := routesFromBackend
            selectedRouteId := routesFromBackend.head?.map Route.id }
          requestIssued := true
          alertMsg := none }

/-- Embedding of the route-selection operation: the route-list buttons
(`RouteMap.tsx` lines 243-251) invoke the bare React state setter
`setSelectedRouteId(r.id)`, which assigns unconditionally. -/
def select (st : SessionState) (id : String) : SessionState :=
  { st with selectedRouteId := some id }

/-- Axis-aligned bounding region handed to the map viewport. -/
structure Region where
  minLat : ℚ
  maxLat : ℚ
  minLon : ℚ
  maxLon : ℚ
deriving DecidableEq, Repr

/-- Modelled from the spec: the bounding-box computation performed by
Leaflet inside `map.fitBounds(allPoints, { padding })` is not part of
`src/`; spec section 4.4 describes it as the minimal axis-aligned
rectangle (`minLat, maxLat, minLon, maxLon` over all points) expanded
by the padding margin on each side. -/
def boundsOf (q : GeoPoint) (qs : List GeoPoint) (padding : ℚ) : Region :=
  { minLat := (qs.map GeoPoint.lat).foldl min q.lat - padding
    maxLat := (qs.map GeoPoint.lat).foldl max q.lat + padding
    minLon := (qs.map GeoPoint.lon).foldl min q.lon - padding
    maxLon := (qs.map GeoPoint.lon).foldl max q.lon + padding }

/-- Embedding of `FitToRoutes` (`RouteMap.tsx` lines 398-411): when the
route list is empty the effect returns without touching the map
(`none`); otherwise `allPoints = routes.flatMap(r => r.geometry)` and,
when non-empty, the map is fitted to their padded bounding region. -/
def fit (routes : List Route) (padding : ℚ) : Option Region :=
  if routes.isEmpty then none
  else
    match (routes.map Route.geometry).flatten with
    | [] => none
    | q :: qs => some (boundsOf q qs padding)

/-- Derived display data of the currently selected route: the elevation
chart series (`(dist_m, elev_m)` pairs), the surface and smoothness
breakdowns, and the displayed unknown-surface percentage. -/
structure Projection where
  elevationSeries : Option (List (ℚ × ℚ))
  surfaceBreakdown : Option (List (String × Nat))
  smoothnessBreakdown : Option (List (String × Nat))
  unknownSurfacePercent : Option ℤ
deriving DecidableEq, Repr

/-- Projection with every field `none`: nothing to show. -/
def Projection.empty : Projection :=
  { elevationSeries := none
    surfaceBreakdown := none
    smoothnessBreakdown := none
    unknownSurfacePercent := none }

/-- Embedding of the guarded display blocks of `RouteMap`
(`RouteMap.tsx` lines 276-321): both cards look the selected route up
with `routes.find(r => r.id === selectedRouteId)` and render nothing
when `selectedRouteId` is `null` or the lookup fails; the elevation
chart plots `elevation_profile` as `dist_m` against `elev_m` in order;
the surface card shows `osm_summary.surfaces`, `osm_summary.smoothness`
and `(osm.unknown_surface_ratio * 100).toFixed(0)` (round to nearest
integer). -/
def project (st : SessionState) : Projection :=
  match st.selectedRouteId with
  | none => Projection.empty
  | some id =>
    match st.routes.find? (fun r => r.id == id) with
    | none => Projection.empty
    | some r =>
        { elevationSeries :=
            some (r.elevation_profile.map (fun s => (s.dist_m, s.elev_m)))
          surfaceBreakdown := some r.osm_summary.surfaces
          smoothnessBreakdown := some r.osm_summary.smoothness
          unknownSurfacePercent :=
            some (round (r.osm_summary.unknown_surface_frac * 100)) }

/-! ### Concrete sample data used in witnesses and counterexamples -/

/-- Sample click point A. -/
def pA : GeoPoint := { lat := 0, lon := 0 }

/-- Sample click point B. -/
def pB : GeoPoint := { lat := 1, lon := 1 }

/-- Sample click point C. -/
def pC : GeoPoint := { lat := 2, lon := 2 }

/-- Sample click point D. -/
def pD : GeoPoint := { lat := 3, lon := 3 }

/-- Sample elevation profile with non-decreasing `dist_m`. -/
def sampleProfile : List ElevationSample :=
  [{ i := 0, lat := 0, lon := 0, elev_m := 10, dist_m := 0 },
   { i := 1, lat := 1, lon := 1, elev_m := 12, dist_m := 5 }]

/-- Sample OSM summary. -/
def sampleOsm : OsmSummary :=
  { steps_count := 0
    surfaces := [("asphalt", 3)]
    smoothness := [("good", 2)]
    highway_types := [("footway", 4)]
    kerb_nodes_count := 1
    unknown_surface_frac := 1 / 4
    sample_points_used := 8 }

/-- Sample elevation metrics. -/
def sampleMetrics : ElevationMetrics :=
  { ascent_m := 3, descent_m := 2, max_slope_percent := 5
    steep_distance_m := { gt5 := 1, gt8 := 0 } }

/-- Sample route with id `r1` and geometry `[(0,0),(1,1)]`. -/
def routeR1 : Route :=
  { id := "r1"
    geometry := [{ lat := 0, lon := 0 }, { lat := 1, lon := 1 }]
    distance_m := 1000
    duration_s := 600
    elevation_metrics := sampleMetrics
    elevation_profile := sampleProfile
    osm_summary := sampleOsm
    accessibility_score := 80
    flags := [] }

/-- Sample route with id `r2`. -/
def routeR2 : Route :=
  { id := "r2"
    geometry := [{ lat := 0, lon := 1 }, { lat := 1, lon := 0 }]
    distance_m := 1500
    duration_s := 700
    elevation_metrics := sampleMetrics
    elevation_profile := []
    osm_summary := sampleOsm
    accessibility_score := 60
    flags := ["steps"] }

/-- Session state at component mount: nothing set. -/
def stEmpty : SessionState :=
  { routes := [], start := none, endPt := none, selectedRouteId := none }

/-- Session state with both points set and no routes fetched yet. -/
def stReady : SessionState :=
  { routes := [], start := some pA, endPt := some pB, selectedRouteId := none }

/-- Session state with one route fetched and selected. -/
def stSelected : SessionState :=
  { routes := [routeR1], start := some pA, endPt := some pB
    selectedRouteId := some "r1" }

/-! ### Click-machine lemmas -/

/-- Unfolding one trailing click. -/
lemma runClicks_concat (ps : List GeoPoint) (p : GeoPoint) :
    runClicks (ps ++ [p]) = clickStep (runClicks ps) p := by
  simp [runClicks, List.foldl_append]

/-- Characterisation of the selector state by click-count parity: after
an odd number of clicks the start is the last click and the end is
clear; after an even number the start is the second-to-last click and
the end is the last. -/
lemma runClicks_parity (ps : List GeoPoint) :
    (ps.length % 2 = 1 → runClicks ps = { start := ps.getLast?, endPt := none }) ∧
    (ps.length % 2 = 0 →
      runClicks ps = { start := ps.dropLast.getLast?, endPt := ps.getLast? }) := by
  induction ps using List.reverseRecOn with
  | nil =>
      refine ⟨fun h => by simp at h, fun _ => rfl⟩
  | append_singleton l a ih =>
      obtain ⟨ihOdd, ihEven⟩ := ih
      rcases Nat.even_or_odd l.length with he | ho
      · have h0 : l.length % 2 = 0 := Nat.even_iff.mp he
        have hrun := ihEven h0
        refine ⟨fun _ => ?_, fun h => ?_⟩
        · rcases eq_or_ne l [] with rfl | hne
          · simp only [List.nil_append, List.getLast?_singleton]
            rfl
          · have hne2 : 2 ≤ l.length := by
              have : l.length ≠ 0 := fun hz => hne (List.length_eq_zero.mp hz)
              omega
            have hdne : l.dropLast ≠ [] := by
              intro hd
              have := congrArg List.length hd
              rw [List.length_dropLast] at this
              simp at this
              omega
            obtain ⟨y, hy⟩ := Option.isSome_iff_exists.mp
              (List.getLast?_isSome.mpr hdne)
            obtain ⟨x, hx⟩ := Option.isSome_iff_exists.mp
              (List.getLast?_isSome.mpr hne)
            rw [runClicks_concat, hrun, List.getLast?_concat]
            simp [clickStep, hx, hy]
        · exfalso
          simp only [List.length_append, List.length_cons, List.length_nil] at h
          omega
      · have h1 : l.length % 2 = 1 := Nat.odd_iff.mp ho
        have hrun := ihOdd h1
        refine ⟨fun h => ?_, fun _ => ?_⟩
        · exfalso
          simp only [List.length_append, List.length_cons, List.length_nil] at h
          omega
        · have hne : l ≠ [] := by
            intro hz
            rw [hz] at h1
            simp at h1
          obtain ⟨x, hx⟩ := Option.isSome_iff_exists.mp
            (List.getLast?_isSome.mpr hne)
          rw [runClicks_concat, hrun, List.getLast?_concat, List.dropLast_concat]
          simp [clickStep, hx]

/-! ### Claim C1 -/

/-- C1 counterexample: the claimed three-click cycle predicts that the
fourth click, like the first, leaves the selector in `StartSet` with
the end point cleared; the code instead reaches `BothSet` holding the
third and fourth clicks. -/
theorem C1_counterexample :
    runClicks [pA, pB, pC, pD] = { start := some pC, endPt := some pD } ∧
    (runClicks [pA, pB, pC, pD]).endPt ≠ none := by
  decide

/-- C1 (amended): after one click the state is `StartSet` with that
point; after two clicks `BothSet` with (first, second); after three
clicks `StartSet` with the third point and end cleared; from then on
the pattern has period two, not three: after any odd number of clicks
the state is `StartSet` holding the latest click with end `none`, and
after any even positive number of clicks it is `BothSet` holding the
second-to-last and last clicks. -/
theorem C1_clickCycle (ps : List GeoPoint) (p1 p2 p3 : GeoPoint) :
    runClicks [p1] = { start := some p1, endPt := none } ∧
    runClicks [p1, p2] = { start := some p1, endPt := some p2 } ∧
    runClicks [p1, p2, p3] = { start := some p3, endPt := none } ∧
    (ps.length % 2 = 1 → runClicks ps = { start := ps.getLast?, endPt := none }) ∧
    (ps.length % 2 = 0 →
      runClicks ps = { start := ps.dropLast.getLast?, endPt := ps.getLast? }) :=
  ⟨rfl, rfl, rfl, (runClicks_parity ps).1, (runClicks_parity ps).2⟩

/-- Witness for C1: the even branch evaluated after four concrete
clicks. -/
theorem C1_clickCycle_witness :
    [pA, pB, pC, pD].length % 2 = 0 ∧
    runClicks [pA, pB, pC, pD] =
      { start := [pA, pB, pC, pD].dropLast.getLast?
        endPt := [pA, pB, pC, pD].getLast? } :=
  ⟨by decide, (C1_clickCycle [pA, pB, pC, pD] pA pB pC).2.2.2.2 (by decide)⟩

/-! ### Claim C10 -/

/-- C10: starting from the initial state, no click sequence ever sets
the end point while the start point is unset. -/
theorem C10_endRequiresStart (ps : List GeoPoint)
    (h : (runClicks ps).endPt.isSome) : (runClicks ps).start.isSome := by
  obtain ⟨hodd, heven⟩ := runClicks_parity ps
  rcases Nat.even_or_odd ps.length with he | ho
  · have h0 := Nat.even_iff.mp he
    rw [heven h0] at h ⊢
    have hne : ps ≠ [] := by
      intro hz
      rw [hz] at h
      simp at h
    have hne2 : 2 ≤ ps.length := by
      have : ps.length ≠ 0 := fun hz => hne (List.length_eq_zero.mp hz)
      omega
    have hdne : ps.dropLast ≠ [] := by
      intro hd
      have := congrArg List.length hd
      rw [List.length_dropLast] at this
      simp at this
      omega
    exact List.getLast?_isSome.mpr hdne
  · have h1 := Nat.odd_iff.mp ho
    rw [hodd h1] at h
    simp at h

/-- Witness for C10: after two concrete clicks the end point is set and
so is the start point. -/
theorem C10_witness :
    (runClicks [pA, pB]).endPt.isSome ∧ (runClicks [pA, pB]).start.isSome :=
  ⟨by decide, C10_endRequiresStart [pA, pB] (by decide)⟩

/-! ### Claim C2 -/

/-- C2: a successful comparison response with a non-empty route list
replaces the route sequence with exactly the received routes, in
order, and selects the id of the first one, whatever the prior
selection was. -/
theorem C2_replaceSelectsFirst (st : SessionState) (r : Route) (rs : List Route)
    (hs : st.start.isSome) (he : st.endPt.isSome) :
    (fetchRoutes st (.ok (some (r :: rs)))).state.routes = r :: rs ∧
    (fetchRoutes st (.ok (some (r :: rs)))).state.selectedRouteId = some r.id := by
  obtain ⟨a, ha⟩ := Option.isSome_iff_exists.mp hs
  obtain ⟨b, hb⟩ := Option.isSome_iff_exists.mp he
  simp [fetchRoutes, ha, hb]

/-- Witness for C2: applying a two-route response to a ready session
selects the first route's id. -/
theorem C2_witness :
    (fetchRoutes stReady (.ok (some (routeR1 :: [routeR2])))).state.routes
      = routeR1 :: [routeR2] ∧
    (fetchRoutes stReady (.ok (some (routeR1 :: [routeR2])))).state.selectedRouteId
      = some routeR1.id :=
  C2_replaceSelectsFirst stReady routeR1 [routeR2] (by decide) (by decide)

/-! ### Claim C3 -/

/-- C3: every failed comparison request (non-success HTTP status, or a
thrown network/parse error) leaves the route sequence empty, the
selection cleared, and an alert message shown to the user. -/
theorem C3_failureResets (st : SessionState) (resp : FetchResult)
    (hs : st.start.isSome) (he : st.endPt.isSome)
    (hfail : (∃ status body, resp = .httpError status body) ∨ resp = .thrown) :
    (fetchRoutes st resp).state.routes = [] ∧
    (fetchRoutes st resp).state.selectedRouteId = none ∧
    (fetchRoutes st resp).alertMsg.isSome := by
  obtain ⟨a, ha⟩ := Option.isSome_iff_exists.mp hs
  obtain ⟨b, hb⟩ := Option.isSome_iff_exists.mp he
  rcases hfail with ⟨status, body, rfl⟩ | rfl <;> simp [fetchRoutes, ha, hb]

/-- Witness for C3: a thrown network error on a ready session resets
routes and selection and alerts. -/
theorem C3_witness :
    (fetchRoutes stReady .thrown).state.routes = [] ∧
    (fetchRoutes stReady .thrown).state.selectedRouteId = none ∧
    (fetchRoutes stReady .thrown).alertMsg.isSome :=
  C3_failureResets stReady .thrown (by decide) (by decide) (Or.inr rfl)

/-! ### Claim C6 -/

/-- C6: requesting a comparison while either point is unset issues no
request and changes no session state. -/
theorem C6_missingPointsNoOp (st : SessionState) (resp : FetchResult)
    (h : st.start.isNone ∨ st.endPt.isNone) :
    (fetchRoutes st resp).state = st ∧
    (fetchRoutes st resp).requestIssued = false := by
  unfold fetchRoutes
  rw [if_pos h]
  exact ⟨rfl, rfl⟩

/-- Witness for C6: with no start point set, even a response in hand
changes nothing and no request goes out. -/
theorem C6_witness :
    (fetchRoutes stEmpty (.ok (some [routeR1]))).state = stEmpty ∧
    (fetchRoutes stEmpty (.ok (some [routeR1]))).requestIssued = false :=
  C6_missingPointsNoOp _ _ (Or.inl (by decide))

/-! ### Claim C9 -/

/-- C9: both failure paths (non-success status and thrown error) leave
the already-set start and end points untouched. -/
theorem C9_failureKeepsPoints (st : SessionState) (resp : FetchResult)
    (hs : st.start.isSome) (he : st.endPt.isSome)
    (hfail : (∃ status body, resp = .httpError status body) ∨ resp = .thrown) :
    (fetchRoutes st resp).state.start = st.start ∧
    (fetchRoutes st resp).state.endPt = st.endPt := by
  obtain ⟨a, ha⟩ := Option.isSome_iff_exists.mp hs
  obtain ⟨b, hb⟩ := Option.isSome_iff_exists.mp he
  rcases hfail with ⟨status, body, rfl⟩ | rfl <;> simp [fetchRoutes, ha, hb]

/-- Witness for C9: a 500 response leaves the concrete session's points
as they were. -/
theorem C9_witness :
    (fetchRoutes stReady (.httpError 500 "oops")).state.start = stReady.start ∧
    (fetchRoutes stReady (.httpError 500 "oops")).state.endPt = stReady.endPt :=
  C9_failureKeepsPoints stReady (.httpError 500 "oops") (by decide) (by decide)
    (Or.inl ⟨500, "oops", rfl⟩)

/-! ### Claim C5 -/

/-- C5 counterexample: a successful response with an empty route list
does empty the routes and clear the selection, but fires no alert — the
failure is not surfaced as a notification, contradicting the claim. -/
theorem C5_counterexample :
    ¬ ((fetchRoutes stReady (.ok (some []))).state.routes = [] ∧
       (fetchRoutes stReady (.ok (some []))).state.selectedRouteId = none ∧
       (fetchRoutes stReady (.ok (some []))).alertMsg.isSome) := by
  decide

/-- C5 (amended): a successful response with an empty candidate list —
including one whose routes field is absent or not an array, treated
exactly as an empty list — replaces the RouteSet with an empty sequence
and clears the selection, but signals nothing: no alert is issued on
this path (the UI falls back to its inline empty-route message). -/
theorem C5_emptySuccess (st : SessionState) (rf : Option (List Route))
    (hs : st.start.isSome) (he : st.endPt.isSome)
    (hempty : rf = none ∨ rf = some []) :
    (fetchRoutes st (.ok rf)).state.routes = [] ∧
    (fetchRoutes st (.ok rf)).state.selectedRouteId = none ∧
    (fetchRoutes st (.ok rf)).alertMsg = none := by
  obtain ⟨a, ha⟩ := Option.isSome_iff_exists.mp hs
  obtain ⟨b, hb⟩ := Option.isSome_iff_exists.mp he
  rcases hempty with rfl | rfl <;> simp [fetchRoutes, ha, hb]

/-- Witness for C5: a response with an absent routes field empties the
set, clears the selection and shows no alert. -/
theorem C5_witness :
    (fetchRoutes stReady (.ok none)).state.routes = [] ∧
    (fetchRoutes stReady (.ok none)).state.selectedRouteId = none ∧
    (fetchRoutes stReady (.ok none)).alertMsg = none :=
  C5_emptySuccess stReady none (by decide) (by decide) (Or.inl rfl)

/-! ### Claim C4 -/

/-- C4 counterexample: selecting an id that matches no current route is
not a no-op — with `r1` selected, selecting the absent id `ghost`
changes the selection. -/
theorem C4_counterexample :
    (∀ r ∈ stSelected.routes, r.id ≠ "ghost") ∧
    (select stSelected "ghost").selectedRouteId ≠ stSelected.selectedRouteId := by
  decide

/-- C4 (amended): invoking `select(id)` sets `selectedId` to `id`
unconditionally, whether or not `id` matches a current route, and
changes nothing else; the prior selection is not preserved for absent
ids.  (The rendered UI only ever invokes the setter with ids of routes
in the current sequence.) -/
theorem C4_selectUnconditional (st : SessionState) (id : String) :
    (select st id).selectedRouteId = some id ∧
    (select st id).routes = st.routes ∧
    (select st id).start = st.start ∧
    (select st id).endPt = st.endPt :=
  ⟨rfl, rfl, rfl, rfl⟩

/-! ### Fold min/max lemmas for the bounds fitter -/

/-- A left fold by `min` is a lower bound of the start value and all
list elements. -/
lemma foldl_min_le {α : Type} [LinearOrder α] (l : List α) (a : α) :
    l.foldl min a ≤ a ∧ ∀ x ∈ l, l.foldl min a ≤ x := by
  induction l generalizing a with
  | nil => exact ⟨le_refl a, by simp⟩
  | cons b t ih =>
      obtain ⟨h1, h2⟩ := ih (min a b)
      refine ⟨le_trans h1 (min_le_left a b), ?_⟩
      intro x hx
      rcases List.mem_cons.mp hx with rfl | hxt
      · exact le_trans h1 (min_le_right a x)
      · exact h2 x hxt

/-- A left fold by `min` is attained: it equals the start value or some
list element. -/
lemma foldl_min_mem {α : Type} [LinearOrder α] (l : List α) (a : α) :
    l.foldl min a = a ∨ l.foldl min a ∈ l := by
  induction l generalizing a with
  | nil => exact Or.inl rfl
  | cons b t ih =>
      rcases ih (min a b) with h | h
      · rcases min_choice a b with hm | hm
        · exact Or.inl (by rw [List.foldl_cons, h, hm])
        · exact Or.inr (by rw [List.foldl_cons, h, hm]; exact List.mem_cons_self b t)
      · exact Or.inr (List.mem_cons_of_mem b h)

/-- A left fold by `max` is an upper bound of the start value and all
list elements. -/
lemma le_foldl_max {α : Type} [LinearOrder α] (l : List α) (a : α) :
    a ≤ l.foldl max a ∧ ∀ x ∈ l, x ≤ l.foldl max a := by
  induction l generalizing a with
  | nil => exact ⟨le_refl a, by simp⟩
  | cons b t ih =>
      obtain ⟨h1, h2⟩ := ih (max a b)
      refine ⟨le_trans (le_max_left a b) h1, ?_⟩
      intro x hx
      rcases List.mem_cons.mp hx with rfl | hxt
      · exact le_trans (le_max_right a x) h1
      · exact h2 x hxt

/-- A left fold by `max` is attained: it equals the start value or some
list element. -/
lemma foldl_max_mem {α : Type} [LinearOrder α] (l : List α) (a : α) :
    l.foldl max a = a ∨ l.foldl max a ∈ l := by
  induction l generalizing a with
  | nil => exact Or.inl rfl
  | cons b t ih =>
      rcases ih (max a b) with h | h
      · rcases max_choice a b with hm | hm
        · exact Or.inl (by rw [List.foldl_cons, h, hm])
        · exact Or.inr (by rw [List.foldl_cons, h, hm]; exact List.mem_cons_self b t)
      · exact Or.inr (List.mem_cons_of_mem b h)

/-- Every point of a flattened geometry list belongs to some route's
geometry. -/
lemma mem_geometry_of_mem_flatten {routes : List Route} {pt : GeoPoint}
    (h : pt ∈ (routes.map Route.geometry).flatten) :
    ∃ rt ∈ routes, pt ∈ rt.geometry := by
  obtain ⟨l, hl, hptl⟩ := List.mem_flatten.mp h
  obtain ⟨rt, hrt, rfl⟩ := List.mem_map.mp hl
  exact ⟨rt, hrt, hptl⟩

/-- The padded bounding region of a non-empty point list: stripping the
padding leaves exactly the minimal axis-aligned bounding rectangle —
all points lie inside it and each of its four sides is attained. -/
lemma boundsOf_bounds (q : GeoPoint) (qs : List GeoPoint) (padding : ℚ) :
    (∀ pt ∈ q :: qs,
      (boundsOf q qs padding).minLat + padding ≤ pt.lat ∧
      pt.lat ≤ (boundsOf q qs padding).maxLat - padding ∧
      (boundsOf q qs padding).minLon + padding ≤ pt.lon ∧
      pt.lon ≤ (boundsOf q qs padding).maxLon - padding) ∧
    (∃ pt ∈ q :: qs, pt.lat = (boundsOf q qs padding).minLat + padding) ∧
    (∃ pt ∈ q :: qs, pt.lat = (boundsOf q qs padding).maxLat - padding) ∧
    (∃ pt ∈ q :: qs, pt.lon = (boundsOf q qs padding).minLon + padding) ∧
    (∃ pt ∈ q :: qs, pt.lon = (boundsOf q qs padding).maxLon - padding) := by
  simp only [boundsOf, sub_add_cancel, add_sub_cancel_right]
  refine ⟨?_, ?_, ?_, ?_, ?_⟩
  · intro pt hpt
    rcases List.mem_cons.mp hpt with rfl | hq
    · exact ⟨(foldl_min_le _ _).1, (le_foldl_max _ _).1,
        (foldl_min_le _ _).1, (le_foldl_max _ _).1⟩
    · exact ⟨(foldl_min_le _ _).2 _ (List.mem_map_of_mem GeoPoint.lat hq),
        (le_foldl_max _ _).2 _ (List.mem_map_of_mem GeoPoint.lat hq),
        (foldl_min_le _ _).2 _ (List.mem_map_of_mem GeoPoint.lon hq),
        (le_foldl_max _ _).2 _ (List.mem_map_of_mem GeoPoint.lon hq)⟩
  · rcases foldl_min_mem (qs.map GeoPoint.lat) q.lat with h | h
    · exact ⟨q, List.mem_cons_self q qs, h.symm⟩
    · obtain ⟨pt, hpt, hval⟩ := List.mem_map.mp h
      exact ⟨pt, List.mem_cons_of_mem q hpt, hval⟩
  · rcases foldl_max_mem (qs.map GeoPoint.lat) q.lat with h | h
    · exact ⟨q, List.mem_cons_self q qs, h.symm⟩
    · obtain ⟨pt, hpt, hval⟩ := List.mem_map.mp h
      exact ⟨pt, List.mem_cons_of_mem q hpt, hval⟩
  · rcases foldl_min_mem (qs.map GeoPoint.lon) q.lon with h | h
    · exact ⟨q, List.mem_cons_self q qs, h.symm⟩
    · obtain ⟨pt, hpt, hval⟩ := List.mem_map.mp h
      exact ⟨pt, List.mem_cons_of_mem q hpt, hval⟩
  · rcases foldl_max_mem (qs.map GeoPoint.lon) q.lon with h | h
    · exact ⟨q, List.mem_cons_self q qs, h.symm⟩
    · obtain ⟨pt, hpt, hval⟩ := List.mem_map.mp h
      exact ⟨pt, List.mem_cons_of_mem q hpt, hval⟩

/-! ### Claim C7 -/

/-- C7: `fit` of an empty route list is `none`; for the single route
with geometry `[(0,0),(1,1)]` and padding `p` the bounds are
`[0-p, 1+p]` on both axes; a non-empty route list with at least one
point yields a region, and any returned region is the minimal
axis-aligned bounding rectangle of all geometry points expanded by the
padding (all points lie within the unpadded rectangle and each side of
it is attained by some point). -/
theorem C7_fit (padding : ℚ) :
    fit [] padding = none ∧
    (∀ rt : Route, rt.geometry = [{ lat := 0, lon := 0 }, { lat := 1, lon := 1 }] →
      fit [rt] padding = some ⟨0 - padding, 1 + padding, 0 - padding, 1 + padding⟩) ∧
    (∀ routes : List Route, routes ≠ [] → (∃ rt ∈ routes, rt.geometry ≠ []) →
      (fit routes padding).isSome) ∧
    (∀ (routes : List Route) (reg : Region), fit routes padding = some reg →
      (∀ rt ∈ routes, ∀ pt ∈ rt.geometry,
        reg.minLat + padding ≤ pt.lat ∧ pt.lat ≤ reg.maxLat - padding ∧
        reg.minLon + padding ≤ pt.lon ∧ pt.lon ≤ reg.maxLon - padding) ∧
      (∃ rt ∈ routes, ∃ pt ∈ rt.geometry, pt.lat = reg.minLat + padding) ∧
      (∃ rt ∈ routes, ∃ pt ∈ rt.geometry, pt.lat = reg.maxLat - padding) ∧
      (∃ rt ∈ routes, ∃ pt ∈ rt.geometry, pt.lon = reg.minLon + padding) ∧
      (∃ rt ∈ routes, ∃ pt ∈ rt.geometry, pt.lon = reg.maxLon - padding)) := by
  refine ⟨rfl, ?_, ?_, ?_⟩
  · intro rt hg
    simp [fit, hg, boundsOf]
  · intro routes hne hex
    have hfl : (routes.map Route.geometry).flatten ≠ [] := by
      obtain ⟨rt, hrt, hgne⟩ := hex
      rcases hgq : rt.geometry with _ | ⟨q, qs⟩
      · exact absurd hgq hgne
      · intro h0
        have hq : q ∈ (routes.map Route.geometry).flatten :=
          List.mem_flatten.mpr ⟨rt.geometry, List.mem_map_of_mem Route.geometry hrt,
            by rw [hgq]; exact List.mem_cons_self q qs⟩
        rw [h0] at hq
        exact absurd hq (List.not_mem_nil q)
    unfold fit
    rw [if_neg (by simpa [List.isEmpty_iff] using hne)]
    rcases hm : (routes.map Route.geometry).flatten with _ | ⟨q, qs⟩
    · exact absurd hm hfl
    · simp
  · intro routes reg hreg
    unfold fit at hreg
    by_cases hre : routes.isEmpty
    · rw [if_pos hre] at hreg
      exact absurd hreg (by simp)
    · rw [if_neg hre] at hreg
      rcases hm : (routes.map Route.geometry).flatten with _ | ⟨q, qs⟩
      · rw [hm] at hreg
        exact absurd hreg (by simp)
      · rw [hm] at hreg
        have hb : boundsOf q qs padding = reg := Option.some.inj hreg
        obtain ⟨hall, hmin1, hmax1, hmin2, hmax2⟩ := boundsOf_bounds q qs padding
        rw [hb] at hall hmin1 hmax1 hmin2 hmax2
        refine ⟨?_, ?_, ?_, ?_, ?_⟩
        · intro rt hrt pt hpt
          have hmem : pt ∈ (routes.map Route.geometry).flatten :=
            List.mem_flatten.mpr ⟨rt.geometry, List.mem_map_of_mem Route.geometry hrt, hpt⟩
          rw [hm] at hmem
          exact hall pt hmem
        · obtain ⟨pt, hpt, hval⟩ := hmin1
          obtain ⟨rt, hrt, hmem⟩ := mem_geometry_of_mem_flatten (hm ▸ hpt)
          exact ⟨rt, hrt, pt, hmem, hval⟩
        · obtain ⟨pt, hpt, hval⟩ := hmax1
          obtain ⟨rt, hrt, hmem⟩ := mem_geometry_of_mem_flatten (hm ▸ hpt)
          exact ⟨rt, hrt, pt, hmem, hval⟩
        · obtain ⟨pt, hpt, hval⟩ := hmin2
          obtain ⟨rt, hrt, hmem⟩ := mem_geometry_of_mem_flatten (hm ▸ hpt)
          exact ⟨rt, hrt, pt, hmem, hval⟩
        · obtain ⟨pt, hpt, hval⟩ := hmax2
          obtain ⟨rt, hrt, hmem⟩ := mem_geometry_of_mem_flatten (hm ▸ hpt)
          exact ⟨rt, hrt, pt, hmem, hval⟩

/-- Witness for C7: concrete evaluation at padding 2 on the sample
route with geometry `[(0,0),(1,1)]`. -/
theorem C7_witness :
    fit [] (2 : ℚ) = none ∧
    fit [routeR1] 2 = some ⟨0 - 2, 1 + 2, 0 - 2, 1 + 2⟩ :=
  ⟨(C7_fit 2).1, (C7_fit 2).2.1 routeR1 rfl⟩

/-! ### Claim C8 -/

/-- C8: with no selection, or a selection matching no current route,
every projected field is `none`; with a selected route found, the
elevation series is the route's profile projected to
`(dist_m, elev_m)` pairs in order (hence of equal length, and
non-decreasing in its first components whenever the profile's `dist_m`
values are), and the displayed unknown-surface percentage is the
route's unknown-surface ratio times 100, rounded. -/
theorem C8_project (st : SessionState) :
    (st.selectedRouteId = none → project st = Projection.empty) ∧
    (∀ id, st.selectedRouteId = some id → (∀ r ∈ st.routes, r.id ≠ id) →
      project st = Projection.empty) ∧
    (∀ id r, st.selectedRouteId = some id →
      st.routes.find? (fun r2 => r2.id == id) = some r →
      (project st).elevationSeries =
        some (r.elevation_profile.map (fun s => (s.dist_m, s.elev_m))) ∧
      (r.elevation_profile.map (fun s => (s.dist_m, s.elev_m))).length =
        r.elevation_profile.length ∧
      (List.Pairwise (· ≤ ·) (r.elevation_profile.map ElevationSample.dist_m) →
        List.Pairwise (· ≤ ·)
          ((r.elevation_profile.map (fun s => (s.dist_m, s.elev_m))).map Prod.fst)) ∧
      (project st).unknownSurfacePercent =
        some (round (r.osm_summary.unknown_surface_frac * 100))) := by
  refine ⟨?_, ?_, ?_⟩
  · intro h
    simp [project, h]
  · intro id hid hnone
    have hfind : st.routes.find? (fun r2 => r2.id == id) = none := by
      rw [List.find?_eq_none]
      intro r hr
      simpa using hnone r hr
    simp [project, hid, hfind]
  · intro id r hid hfind
    refine ⟨by simp [project, hid, hfind], List.length_map _ _, ?_,
      by simp [project, hid, hfind]⟩
    intro hmono
    have hcomp :
        (r.elevation_profile.map (fun s => (s.dist_m, s.elev_m))).map Prod.fst =
          r.elevation_profile.map ElevationSample.dist_m := by
      rw [List.map_map]
      rfl
    rw [hcomp]
    exact hmono

/-- Witness for C8: concrete projection of the session with `r1`
selected. -/
theorem C8_witness :
    (project stSelected).elevationSeries =
      some (routeR1.elevation_profile.map (fun s => (s.dist_m, s.elev_m))) ∧
    List.Pairwise (· ≤ ·)
      ((routeR1.elevation_profile.map (fun s => (s.dist_m, s.elev_m))).map Prod.fst) ∧
    (project stSelected).unknownSurfacePercent =
      some (round (routeR1.osm_summary.unknown_surface_frac * 100)) :=
  ⟨((C8_project stSelected).2.2 "r1" routeR1 rfl rfl).1,
   ((C8_project stSelected).2.2 "r1" routeR1 rfl rfl).2.2.1 (by decide),
   ((C8_project stSelected).2.2 "r1" routeR1 rfl rfl).2.2.2⟩
